import Mathlib

/-!
Verification of the run-worker health monitoring subsystem of the
dagster-cloud repository.

The embedding covers:
* `dagster_cloud/execution/cloud_run_launcher/k8s.py`
  (`CloudK8sRunLauncher.check_run_worker_health`);
* `dagster_cloud/execution/monitoring/__init__.py`
  (`get_cloud_run_worker_statuses`, `run_worker_monitoring_thread_iteration`,
  `run_worker_monitoring_thread`).

Python exceptions are modelled by `Except PyException`; a Python function
that may raise becomes a Lean function into `Except`.  The shared
`statuses_dict` is modelled as an association list written in insertion
order, mirroring a Python dict that is only ever cleared and then filled
by looped assignment with distinct keys.  The two temporal claims use,
respectively, an event trace of one loop iteration (lock acquisitions,
external calls, table writes) and a discrete-time model of
`threading.Event.wait`.
-/

/-- A raised Python exception: its class name, its stringified message, and
the formatted stack trace lines captured by `sys.exc_info`. -/
structure PyException where
  className : String
  excMessage : String
  stack : List String
deriving DecidableEq, Repr

/-- Model of `dagster._utils.error.SerializableErrorInfo`. -/
structure SerializableErrorInfo where
  message : String
  stack : List String
  cls_name : String
deriving DecidableEq, Repr

/-- Model of Python `traceback.format_exception_only` joined to one string:
`"ClassName: message\n"`, or `"ClassName\n"` when the message is empty. -/
def format_exception_only (e : PyException) : String :=
  (if e.excMessage = "" then e.className
   else e.className ++ ": " ++ e.excMessage) ++ "\n"

/-- Model of `serializable_error_info_from_exc_info(sys.exc_info())` for a
caught exception. -/
def serializable_error_info_from_exc_info (e : PyException) : SerializableErrorInfo :=
  { message := format_exception_only e, stack := e.stack, cls_name := e.className }

/-- Model of `SerializableErrorInfo.__str__` (its `to_string`): the message
followed by the stack-trace section when a stack is present. -/
def SerializableErrorInfo.to_string (e : SerializableErrorInfo) : String :=
  e.message ++ (if e.stack.isEmpty then "" else "\nStack Trace:\n" ++ String.join e.stack)

/-- Model of `dagster._check.invariant`: raises `CheckError("Invariant failed.")`
when the condition is falsy, otherwise returns. -/
def check_invariant (b : Bool) : Except PyException Unit :=
  if b then .ok () else .error { className := "CheckError", excMessage := "Invariant failed.", stack := [] }

/-- `dagster._core.launcher.WorkerStatus`. -/
inductive WorkerStatus where
  | RUNNING
  | SUCCESS
  | FAILED
  | UNKNOWN
deriving DecidableEq, Repr

/-- `dagster._core.launcher.CheckRunHealthResult`: a worker status plus an
optional diagnostic message (defaulting to `None`). -/
structure CheckRunHealthResult where
  status : WorkerStatus
  msg : Option String := none
deriving DecidableEq, Repr

/-- The Kubernetes `JobStatus` fields read by the launcher: the `failed` and
`succeeded` pod counts, each optional as in the k8s API. -/
structure JobStatus where
  failed : Option Nat
  succeeded : Option Nat
deriving DecidableEq, Repr

/-- A Kubernetes job as returned by `read_namespaced_job`. -/
structure K8sJob where
  status : JobStatus
deriving DecidableEq, Repr

/-- Python truthiness of an optional count: `None` and `0` are falsy. -/
def py_truthy : Option Nat → Bool
  | none => false
  | some n => n != 0

/-- `CloudK8sRunLauncher.check_run_worker_health` (k8s.py lines 13-33),
as a function of the outcome of the `read_namespaced_job` call.  The
try/except around the job read becomes the `Except` match: a raised
exception yields `UNKNOWN` with the stringified serializable error info,
never a propagated exception.  A job that was read is classified by
Python truthiness of the status counts, `failed` checked first. -/
def CloudK8sRunLauncher.check_run_worker_health
    (job_read : Except PyException K8sJob) : CheckRunHealthResult :=
  match job_read with
  | .error e =>
      { status := .UNKNOWN
        msg := some (serializable_error_info_from_exc_info e).to_string }
  | .ok job =>
      if py_truthy job.status.failed then
        { status := .FAILED, msg := some "K8s job failed" }
      else if py_truthy job.status.succeeded then
        { status := .SUCCESS }
      else
        { status := .RUNNING }

/-- The Boolean message invariant on a health-check result: a message is
present only when the status is `FAILED` or `UNKNOWN`. -/
def msg_invariant (r : CheckRunHealthResult) : Bool :=
  match r.msg with
  | none => true
  | some _ => r.status == .FAILED || r.status == .UNKNOWN

/-- A pipeline run; the monitoring code reads only its `run_id`. -/
structure Run where
  run_id : String
deriving DecidableEq, Repr

/-- `CloudRunWorkerStatus` (monitoring/__init__.py): one run id paired with
its worker status and optional message. -/
structure CloudRunWorkerStatus where
  run_id : String
  status_type : WorkerStatus
  message : Option String
deriving DecidableEq, Repr

/-- `CloudRunWorkerStatus.from_check_run_health_result`. -/
def CloudRunWorkerStatus.from_check_run_health_result
    (run_id : String) (result : CheckRunHealthResult) : CloudRunWorkerStatus :=
  { run_id := run_id, status_type := result.status, message := result.msg }

/-- The run launcher of a scoped instance, as the monitoring loop sees it:
whether it declares health-check support, and the outcome of each per-run
health check (which, for a general launcher, may raise). -/
structure RunLauncher where
  supports_check_run_worker_health : Bool
  check_run_worker_health : Run → Except PyException CheckRunHealthResult

/-- A per-deployment scoped `DagsterInstance`: its run launcher and the
outcome of `get_runs(PipelineRunsFilter(statuses=IN_PROGRESS_RUN_STATUSES))`
during this iteration (the listing call may raise). -/
structure DagsterInstance where
  run_launcher : RunLauncher
  get_runs : Except PyException (List Run)

/-- The shared `statuses_dict`: a Python dict from deployment name to the
list of worker statuses, modelled as an association list in insertion
order (the deployment names polled form a set, so keys are distinct). -/
abbrev StatusesDict := List (String × List CloudRunWorkerStatus)

/-- The list comprehension inside `get_cloud_run_worker_statuses`:
`[CloudRunWorkerStatus.from_check_run_health_result(run.run_id,
launcher.check_run_worker_health(run)) for run in runs]`, evaluated left to
right, aborting at the first raised exception. -/
def checkStatuses (launcher : RunLauncher) : List Run → Except PyException (List CloudRunWorkerStatus)
  | [] => .ok []
  | r :: rs =>
    match launcher.check_run_worker_health r with
    | .error e => .error e
    | .ok res =>
      match checkStatuses launcher rs with
      | .error e => .error e
      | .ok tail => .ok (CloudRunWorkerStatus.from_check_run_health_result r.run_id res :: tail)

/-- The loop body of `get_cloud_run_worker_statuses` for one deployment:
open the scoped instance, `check.invariant` that the launcher supports
health checks (raising when it does not), list the in-progress runs, and
map the health check over them. -/
def pollDeployment (scoped_instance : DagsterInstance) : Except PyException (List CloudRunWorkerStatus) :=
  match check_invariant scoped_instance.run_launcher.supports_check_run_worker_health with
  | .error e => .error e
  | .ok _ =>
    match scoped_instance.get_runs with
    | .error e => .error e
    | .ok runs => checkStatuses scoped_instance.run_launcher runs

/-- `get_cloud_run_worker_statuses` (monitoring/__init__.py lines 101-119):
iterate over the deployment names in order, filling `statuses` keyed by
deployment name; any exception raised for any deployment propagates out of
the whole function.  The environment `env` gives, per deployment name, the
scoped instance obtained from `DagsterInstance.from_ref`. -/
def get_cloud_run_worker_statuses (env : String → DagsterInstance) :
    List String → Except PyException StatusesDict
  | [] => .ok []
  | deployment_name :: rest =>
    match pollDeployment (env deployment_name) with
    | .error e => .error e
    | .ok sts =>
      match get_cloud_run_worker_statuses env rest with
      | .error e => .error e
      | .ok tail => .ok ((deployment_name, sts) :: tail)

/-- `run_worker_monitoring_thread_iteration` (lines 141-161): copy the
deployment set under the lock, poll outside the lock, and, under the lock
again, clear `statuses_dict` and write every entry of the poll result.
The enclosing try/except makes the function total: a raised exception is
caught and logged as serializable error info, leaving the dict untouched.
Returns the dict after the iteration and the logged error, if any. -/
def run_worker_monitoring_thread_iteration (env : String → DagsterInstance)
    (deployments_to_check : List String) (statuses_dict : StatusesDict) :
    StatusesDict × Option SerializableErrorInfo :=
  match get_cloud_run_worker_statuses env deployments_to_check with
  | .ok statuses => (statuses, none)
  | .error e => (statuses_dict, some (serializable_error_info_from_exc_info e))

/-! ### Event-trace model of one loop iteration

For the lock-discipline claim, one pass of
`run_worker_monitoring_thread_iteration` is rendered as the sequence of
events it performs in program order: lock acquisitions and releases (the
two `with run_worker_monitoring_lock:` blocks), the copy of the deployment
set, the external calls made by `get_cloud_run_worker_statuses`
(instance construction, run listing, per-run health checks), the writes
to the shared dict, and the error logging in the except branch. -/

/-- One observable event of a monitor-loop iteration. -/
inductive MonEvent where
  | acquire
  | release
  | copySet
  | externalCall (descr : String)
  | commitWrite
  | logError
deriving DecidableEq, Repr

/-- The external calls made while polling one deployment, truncated at the
first raised exception: the scoped-instance construction, then (when the
support invariant holds) the run listing, then one health check per run
until one raises. -/
def healthTrace (launcher : RunLauncher) : List Run → List MonEvent
  | [] => []
  | r :: rs =>
    .externalCall "check_run_worker_health" ::
      (match launcher.check_run_worker_health r with
       | .error _ => []
       | .ok _ => healthTrace launcher rs)

/-- External calls of `pollDeployment` in program order. -/
def pollDeploymentTrace (scoped_instance : DagsterInstance) : List MonEvent :=
  .externalCall "DagsterInstance.from_ref" ::
    (if scoped_instance.run_launcher.supports_check_run_worker_health then
      .externalCall "get_runs" ::
        (match scoped_instance.get_runs with
         | .error _ => []
         | .ok runs => healthTrace scoped_instance.run_launcher runs)
     else [])

/-- External calls of `get_cloud_run_worker_statuses` in program order,
truncated at the first deployment whose poll raises. -/
def pollTrace (env : String → DagsterInstance) : List String → List MonEvent
  | [] => []
  | d :: ds =>
    pollDeploymentTrace (env d) ++
      (match pollDeployment (env d) with
       | .error _ => []
       | .ok _ => pollTrace env ds)

/-- The full event trace of `run_worker_monitoring_thread_iteration`:
lock, copy the deployment set, unlock; poll outside the lock; then either
lock, commit, unlock (success) or log the caught error (failure). -/
def iterationTrace (env : String → DagsterInstance) (deployments_to_check : List String) :
    List MonEvent :=
  [.acquire, .copySet, .release]
    ++ pollTrace env deployments_to_check
    ++ (match get_cloud_run_worker_statuses env deployments_to_check with
        | .ok _ => [.acquire, .commitWrite, .release]
        | .error _ => [.logError])

/-- Lock discipline checker, scanning a trace with the current lock depth:
the tenant-set copy and the commit write happen only while the lock is
held, and external calls and error logging happen only while it is not. -/
def lockDiscipline : Nat → List MonEvent → Bool
  | _, [] => true
  | d, .acquire :: tr => lockDiscipline (d + 1) tr
  | d, .release :: tr => lockDiscipline (d - 1) tr
  | d, .copySet :: tr => decide (0 < d) && lockDiscipline d tr
  | d, .commitWrite :: tr => decide (0 < d) && lockDiscipline d tr
  | d, .externalCall _ :: tr => (d == 0) && lockDiscipline d tr
  | d, .logError :: tr => (d == 0) && lockDiscipline d tr

/-- Whether an event is an external call. -/
def MonEvent.isExternal : MonEvent → Bool
  | .externalCall _ => true
  | _ => false

/-! ### Discrete-time model of the monitor loop

For the cancellation claim, `run_worker_monitoring_thread` (lines 122-138)
is modelled over discrete time.  `cancelAt` is the absolute time at which
`shutdown_event` becomes set (`none` when it never is); `iterTime t` is
the duration of the iteration starting at time `t`; the loop checks
`shutdown_event.is_set()` at the top, runs one iteration, then performs
`shutdown_event.wait(interval)`, which returns at the timeout or as soon
as the event is set, whichever comes first.  The model is fueled; it
returns the list of iteration start times and the exit time. -/

/-- `shutdown_event.is_set()` at time `t`. -/
def event_is_set (cancelAt : Option Nat) (t : Nat) : Bool :=
  match cancelAt with
  | none => false
  | some c => decide (c ≤ t)

/-- `shutdown_event.wait(timeout)` started at time `t`: returns the wake
time, i.e. after `timeout` or as soon as the event is set, whichever is
earlier (immediately when already set). -/
def event_wait (cancelAt : Option Nat) (t timeout : Nat) : Nat :=
  match cancelAt with
  | none => t + timeout
  | some c => if c ≤ t then t else min (t + timeout) c

/-- `run_worker_monitoring_thread`: while the shutdown event is not set,
run one iteration and then wait on the event with the configured interval
as timeout. -/
def run_worker_monitoring_thread (cancelAt : Option Nat) (interval : Nat)
    (iterTime : Nat → Nat) : Nat → Nat → List Nat × Nat
  | 0, t => ([], t)
  | fuel + 1, t =>
    if event_is_set cancelAt t then ([], t)
    else
      let afterIter := t + iterTime t
      let afterWait := event_wait cancelAt afterIter interval
      let rest := run_worker_monitoring_thread cancelAt interval iterTime fuel afterWait
      (t :: rest.1, rest.2)

/-! ### Concrete fixtures used by witnesses and counterexamples -/

/-- A transport error raised by a run-listing call. -/
def excTransport : PyException :=
  { className := "Exception", excMessage := "connection refused", stack := ["  line one\n"] }

/-- A healthy deployment instance: health checks supported, one in-progress
run `r1`, every health check returning `RUNNING`. -/
def instHealthyOneRun : DagsterInstance :=
  { run_launcher :=
      { supports_check_run_worker_health := true
        check_run_worker_health := fun _ => .ok { status := .RUNNING } }
    get_runs := .ok [{ run_id := "r1" }] }

/-- A deployment whose launcher does not support health checks, with two
in-progress runs. -/
def instUnsupported : DagsterInstance :=
  { run_launcher :=
      { supports_check_run_worker_health := false
        check_run_worker_health := fun _ => .ok { status := .RUNNING } }
    get_runs := .ok [{ run_id := "r1" }, { run_id := "r2" }] }

/-- A deployment whose run-listing call raises. -/
def instListingError : DagsterInstance :=
  { run_launcher :=
      { supports_check_run_worker_health := true
        check_run_worker_health := fun _ => .ok { status := .RUNNING } }
    get_runs := .error excTransport }

/-- Every deployment unsupported. -/
def envUnsupported : String → DagsterInstance := fun _ => instUnsupported

/-- Deployment `a` fails its listing call, every other deployment is healthy. -/
def envListingAB : String → DagsterInstance :=
  fun d => if d = "a" then instListingError else instHealthyOneRun

/-- Every deployment healthy. -/
def envHealthy : String → DagsterInstance := fun _ => instHealthyOneRun

/-- A stale worker status from an earlier poll cycle. -/
def oldStatus : CloudRunWorkerStatus :=
  { run_id := "rOld", status_type := .SUCCESS, message := none }

/-- A status table holding a previous entry for deployment `b`. -/
def tblOldB : StatusesDict := [("b", [oldStatus])]

/-- A status table holding a previous entry for deployment `a`. -/
def tblOldA : StatusesDict := [("a", [oldStatus])]

/-- A k8s job whose status carries both a nonzero `failed` count and a
nonzero `succeeded` count. -/
def jobBothCounts : K8sJob := { status := { failed := some 1, succeeded := some 1 } }

/-- A constant iteration duration for the loop-model witness. -/
def constIterTime : Nat → Nat := fun _ => 2

/-! ## Theorems -/

/-- The serialized form of a caught exception is never the empty string:
`format_exception_only` always ends in a newline. -/
theorem to_string_of_exc_info_ne_empty (e : PyException) :
    (serializable_error_info_from_exc_info e).to_string ≠ "" := by
  intro hcontra
  have hlen := congrArg String.length hcontra
  simp [SerializableErrorInfo.to_string, serializable_error_info_from_exc_info,
    format_exception_only, String.length_append] at hlen
  rcases hlen with ⟨h1, _⟩
  by_cases hm : e.excMessage = "" <;> simp [hm] at h1 <;> exact absurd h1.2 (by decide)

/-- C5: CloudK8sRunLauncher.check_run_worker_health never raises for a run
whose k8s job cannot be read: every exception from the job-read call is
mapped to a result with status UNKNOWN and a non-empty diagnostic
message. -/
theorem check_run_worker_health_job_read_failure (e : PyException) :
    CloudK8sRunLauncher.check_run_worker_health (.error e) =
      { status := .UNKNOWN
        msg := some (serializable_error_info_from_exc_info e).to_string } ∧
    (serializable_error_info_from_exc_info e).to_string ≠ "" :=
  ⟨rfl, to_string_of_exc_info_ne_empty e⟩

/-- C8: every result of CloudK8sRunLauncher.check_run_worker_health
satisfies the message invariant: the message is present only when the
status is FAILED or UNKNOWN, so SUCCESS and RUNNING results carry no
message. -/
theorem check_run_worker_health_msg_invariant (job_read : Except PyException K8sJob) :
    msg_invariant (CloudK8sRunLauncher.check_run_worker_health job_read) = true := by
  match job_read with
  | .error e => rfl
  | .ok job =>
    simp only [CloudK8sRunLauncher.check_run_worker_health]
    by_cases hf : py_truthy job.status.failed <;>
      by_cases hs : py_truthy job.status.succeeded <;>
      simp [hf, hs, msg_invariant]

/-- C10: a successfully read k8s job is classified with fixed precedence:
FAILED with message "K8s job failed" whenever the failed count is set
(Python-truthy), even if the succeeded count is also set; otherwise
SUCCESS when the succeeded count is set; otherwise RUNNING. -/
theorem check_run_worker_health_job_classification (job : K8sJob) :
    (py_truthy job.status.failed = true →
      CloudK8sRunLauncher.check_run_worker_health (.ok job) =
        { status := .FAILED, msg := some "K8s job failed" }) ∧
    (py_truthy job.status.failed = false → py_truthy job.status.succeeded = true →
      CloudK8sRunLauncher.check_run_worker_health (.ok job) =
        { status := .SUCCESS, msg := none }) ∧
    (py_truthy job.status.failed = false → py_truthy job.status.succeeded = false →
      CloudK8sRunLauncher.check_run_worker_health (.ok job) =
        { status := .RUNNING, msg := none }) := by
  refine ⟨fun hf => ?_, fun hf hs => ?_, fun hf hs => ?_⟩ <;>
    simp [CloudK8sRunLauncher.check_run_worker_health, hf, *]

/-- C10 witness: a job with both counts set to 1 is classified FAILED. -/
theorem check_run_worker_health_job_classification_witness :
    CloudK8sRunLauncher.check_run_worker_health (.ok jobBothCounts) =
      { status := .FAILED, msg := some "K8s job failed" } :=
  (check_run_worker_health_job_classification jobBothCounts).1 rfl

/-- Helper: when a deployment in the polled list does not support health
checks, `get_cloud_run_worker_statuses` raises (returns an error) for the
whole call, whatever the run lists and health checks are. -/
theorem get_statuses_error_of_unsupported_member (env : String → DagsterInstance) :
    ∀ (deps : List String) (t : String), t ∈ deps →
      (env t).run_launcher.supports_check_run_worker_health = false →
      ∃ e, get_cloud_run_worker_statuses env deps = .error e := by
  intro deps
  induction deps with
  | nil => intro t ht _; exact absurd ht (List.not_mem_nil t)
  | cons d ds ih =>
    intro t ht hsup
    rcases List.mem_cons.mp ht with heq | hmem
    · subst heq
      have : get_cloud_run_worker_statuses env (t :: ds) =
          .error { className := "CheckError", excMessage := "Invariant failed.", stack := [] } := by
        simp [get_cloud_run_worker_statuses, pollDeployment, check_invariant, hsup]
      exact ⟨_, this⟩
    · match hpd : pollDeployment (env d) with
      | .error e => exact ⟨e, by simp [get_cloud_run_worker_statuses, hpd]⟩
      | .ok sts =>
        obtain ⟨e, he⟩ := ih t hmem hsup
        exact ⟨e, by simp [get_cloud_run_worker_statuses, hpd, he]⟩

/-- C1 counterexample: a deployment whose launcher does not support health
checks and that has two in-progress runs.  The poll does not record the
snapshot the claim demands and then continue: it raises a CheckError
invariant failure, and after the iteration the table carries no entry for
that deployment at all. -/
theorem unsupported_deployment_raises_counterexample :
    get_cloud_run_worker_statuses envUnsupported ["t"] =
      .error { className := "CheckError", excMessage := "Invariant failed.", stack := [] } ∧
    (run_worker_monitoring_thread_iteration envUnsupported ["t"] []).1.lookup "t" = none := by
  constructor <;> rfl

/-- C1 amended: for every deployment in the polled list whose launcher does
not support health checks, `get_cloud_run_worker_statuses` raises
(regardless of how many in-progress runs any deployment has), so the
iteration catches the error and leaves the status table unchanged; no
snapshot is recorded for that deployment or any other in that cycle. -/
theorem unsupported_deployment_raises (env : String → DagsterInstance)
    (deps : List String) (t : String) (tbl : StatusesDict) (ht : t ∈ deps)
    (hsup : (env t).run_launcher.supports_check_run_worker_health = false) :
    (∃ e, get_cloud_run_worker_statuses env deps = .error e) ∧
    (run_worker_monitoring_thread_iteration env deps tbl).1 = tbl := by
  obtain ⟨e, he⟩ := get_statuses_error_of_unsupported_member env deps t ht hsup
  exact ⟨⟨e, he⟩, by simp [run_worker_monitoring_thread_iteration, he]⟩

/-- C1 amended witness at a concrete unsupported deployment. -/
theorem unsupported_deployment_raises_witness :
    (∃ e, get_cloud_run_worker_statuses envUnsupported ["t"] = .error e) ∧
    (run_worker_monitoring_thread_iteration envUnsupported ["t"] tblOldB).1 = tblOldB :=
  unsupported_deployment_raises envUnsupported ["t"] "t" tblOldB
    (List.mem_singleton.mpr rfl) rfl

/-- C2 counterexample: deployment a fails its listing call and deployment b
succeeds, with a stale entry for b in the table.  The commit does not
update the entry of b with its fresh status: the whole poll raises and the
table is left exactly as it was, with the stale entry of b still in
place. -/
theorem listing_failure_not_isolated_counterexample :
    (run_worker_monitoring_thread_iteration envListingAB ["a", "b"] tblOldB).1 = tblOldB ∧
    (run_worker_monitoring_thread_iteration envListingAB ["a", "b"] tblOldB).1.lookup "b" ≠
      some [{ run_id := "r1", status_type := .RUNNING, message := none }] := by
  constructor <;> decide

/-- C2 amended: when the listing call of deployment a raises, the entire
poll over the pair raises, so the iteration commits nothing: the previous
entry of every deployment (b included) is left untouched, b is not
refreshed, and the caught error is logged rather than terminating the
loop. -/
theorem listing_failure_aborts_whole_poll (env : String → DagsterInstance)
    (a b : String) (tbl : StatusesDict) (e : PyException)
    (hsup : (env a).run_launcher.supports_check_run_worker_health = true)
    (hruns : (env a).get_runs = .error e) :
    run_worker_monitoring_thread_iteration env [a, b] tbl =
      (tbl, some (serializable_error_info_from_exc_info e)) := by
  simp [run_worker_monitoring_thread_iteration, get_cloud_run_worker_statuses,
    pollDeployment, check_invariant, hsup, hruns]

/-- C2 amended witness at the concrete two-deployment environment. -/
theorem listing_failure_aborts_whole_poll_witness :
    run_worker_monitoring_thread_iteration envListingAB ["a", "b"] tblOldB =
      (tblOldB, some (serializable_error_info_from_exc_info excTransport)) :=
  listing_failure_aborts_whole_poll envListingAB "a" "b" tblOldB excTransport rfl rfl

/-- C3 counterexample: a table holding an entry for deployment a is
committed against a poll result that covers only deployment b.  The claim
says the entry of a remains unchanged; in fact the clear-then-rewrite
erases it. -/
theorem commit_erases_absent_tenant_counterexample :
    tblOldA.lookup "a" = some [oldStatus] ∧
    (run_worker_monitoring_thread_iteration envHealthy ["b"] tblOldA).1.lookup "a" = none := by
  constructor <;> decide

/-- C3 amended: the commit replaces the whole table with the poll result:
`statuses_dict.clear()` followed by writing every entry of the result, so
the table after the commit is exactly the result, and an entry for a
tenant absent from the result is erased rather than retained. -/
theorem commit_replaces_whole_table (env : String → DagsterInstance)
    (deps : List String) (tbl res : StatusesDict)
    (h : get_cloud_run_worker_statuses env deps = .ok res) :
    (run_worker_monitoring_thread_iteration env deps tbl).1 = res := by
  simp [run_worker_monitoring_thread_iteration, h]

/-- C3 amended witness: committing a result that covers deployment b only,
over a table holding deployment a, yields exactly the fresh result. -/
theorem commit_replaces_whole_table_witness :
    (run_worker_monitoring_thread_iteration envHealthy ["b"] tblOldA).1 =
      [("b", [{ run_id := "r1", status_type := .RUNNING, message := none }])] :=
  commit_replaces_whole_table envHealthy ["b"] tblOldA
    [("b", [{ run_id := "r1", status_type := .RUNNING, message := none }])] rfl

/-- C4: every exception escaping the poll step is caught by the iteration:
the status table is returned unchanged (a no-op cycle) and the structured
serializable error info of the exception is recorded; the iteration is a
total function, so the exception never escapes it and never terminates
the monitor loop. -/
theorem iteration_catches_poll_exception (env : String → DagsterInstance)
    (deps : List String) (tbl : StatusesDict) (e : PyException)
    (h : get_cloud_run_worker_statuses env deps = .error e) :
    run_worker_monitoring_thread_iteration env deps tbl =
      (tbl, some (serializable_error_info_from_exc_info e)) := by
  simp [run_worker_monitoring_thread_iteration, h]

/-- C4 witness at a concrete failing poll. -/
theorem iteration_catches_poll_exception_witness :
    run_worker_monitoring_thread_iteration envUnsupported ["t"] tblOldA =
      (tblOldA, some (serializable_error_info_from_exc_info
        { className := "CheckError", excMessage := "Invariant failed.", stack := [] })) :=
  iteration_catches_poll_exception envUnsupported ["t"] tblOldA
    { className := "CheckError", excMessage := "Invariant failed.", stack := [] } rfl

/-- Helper: the status comprehension over a launcher whose health checks
all succeed maps the check over the runs in listing order. -/
theorem checkStatuses_all_ok (s : Bool) (h : Run → CheckRunHealthResult) (runs : List Run) :
    checkStatuses
      { supports_check_run_worker_health := s
        check_run_worker_health := fun r => .ok (h r) } runs =
      .ok (runs.map fun r => CloudRunWorkerStatus.from_check_run_health_result r.run_id (h r)) := by
  induction runs with
  | nil => rfl
  | cons r rs ih => simp [checkStatuses, ih]

/-- C9: when every per-deployment listing call and every per-run health
check succeeds (and every launcher declares support), the poll returns a
mapping whose keys are exactly the requested deployment names in order,
each mapped to the per-run statuses of its freshly listed in-progress
runs, in listing order, one entry per run. -/
theorem get_statuses_all_success (runsOf : String → List Run)
    (healthOf : String → Run → CheckRunHealthResult) (deps : List String) :
    get_cloud_run_worker_statuses
      (fun d =>
        { run_launcher :=
            { supports_check_run_worker_health := true
              check_run_worker_health := fun r => .ok (healthOf d r) }
          get_runs := .ok (runsOf d) })
      deps =
    .ok (deps.map fun d => (d, (runsOf d).map fun r =>
      CloudRunWorkerStatus.from_check_run_health_result r.run_id (healthOf d r))) := by
  induction deps with
  | nil => rfl
  | cons d ds ih =>
    simp [get_cloud_run_worker_statuses, pollDeployment, check_invariant,
      checkStatuses_all_ok, ih]

/-- Helper: a prefix consisting only of external calls does not change the
lock-discipline verdict at depth zero. -/
theorem lockDiscipline_append_external :
    ∀ (tr rest : List MonEvent), tr.all MonEvent.isExternal = true →
      lockDiscipline 0 (tr ++ rest) = lockDiscipline 0 rest := by
  intro tr
  induction tr with
  | nil => intro rest _; rfl
  | cons e es ih =>
    intro rest hall
    rw [List.all_cons, Bool.and_eq_true] at hall
    cases e with
    | acquire => exact absurd hall.1 (by decide)
    | release => exact absurd hall.1 (by decide)
    | copySet => exact absurd hall.1 (by decide)
    | commitWrite => exact absurd hall.1 (by decide)
    | logError => exact absurd hall.1 (by decide)
    | externalCall s => simp [lockDiscipline, ih rest hall.2]

/-- Helper: the per-run health-check trace consists of external calls only. -/
theorem healthTrace_external (launcher : RunLauncher) :
    ∀ runs : List Run, (healthTrace launcher runs).all MonEvent.isExternal = true := by
  intro runs
  induction runs with
  | nil => rfl
  | cons r rs ih =>
    cases hc : launcher.check_run_worker_health r <;>
      simp [healthTrace, hc, MonEvent.isExternal, ih]

/-- Helper: the per-deployment poll trace consists of external calls only. -/
theorem pollDeploymentTrace_external (inst : DagsterInstance) :
    (pollDeploymentTrace inst).all MonEvent.isExternal = true := by
  by_cases hs : inst.run_launcher.supports_check_run_worker_health = true <;>
    cases hg : inst.get_runs <;>
      simp [pollDeploymentTrace, hs, hg, MonEvent.isExternal, healthTrace_external]

/-- Helper: the whole poll trace consists of external calls only. -/
theorem pollTrace_external (env : String → DagsterInstance) :
    ∀ deps : List String, (pollTrace env deps).all MonEvent.isExternal = true := by
  intro deps
  induction deps with
  | nil => rfl
  | cons d ds ih =>
    cases hp : pollDeployment (env d) <;>
      simp [pollTrace, hp, List.all_append, pollDeploymentTrace_external, ih]

/-- C6: in every monitor-loop iteration the lock is held exactly for the
copy of the deployment set and for the commit of the result; every
external call of the poll (instance construction, run listing, per-run
health checks) happens strictly outside the lock, so the lock is never
held during external I/O. -/
theorem monitor_iteration_lock_discipline (env : String → DagsterInstance)
    (deps : List String) :
    lockDiscipline 0 (iterationTrace env deps) = true := by
  cases hg : get_cloud_run_worker_statuses env deps <;>
    simp [iterationTrace, hg, lockDiscipline,
      lockDiscipline_append_external _ _ (pollTrace_external env deps)]

/-- C7: with the shutdown event set at time c, (1) every iteration the
loop starts begins strictly before c — the signal is checked before each
polling pass and no iteration runs once it is set; (2) when the signal is
already set at a check, the loop exits immediately with no further
iteration; (3) the inter-iteration sleep waits on the event with the
interval as timeout, so a cancellation arriving during the sleep wakes
the loop at time c rather than after the full interval. -/
theorem monitor_thread_shutdown (c interval : Nat) (iterTime : Nat → Nat) (fuel t : Nat) :
    (run_worker_monitoring_thread (some c) interval iterTime fuel t).1.all
        (fun s => decide (s < c)) = true ∧
    (c ≤ t → run_worker_monitoring_thread (some c) interval iterTime fuel t = ([], t)) ∧
    (t < c → c ≤ t + interval → event_wait (some c) t interval = c) := by
  refine ⟨?_, ?_, ?_⟩
  · induction fuel generalizing t with
    | zero => rfl
    | succ n ih =>
      by_cases h : event_is_set (some c) t = true
      · simp [run_worker_monitoring_thread, h]
      · have ht : t < c := by
          simp [event_is_set] at h
          omega
        simp [run_worker_monitoring_thread, h, ht, ih]
  · intro hct
    cases fuel with
    | zero => rfl
    | succ n => simp [run_worker_monitoring_thread, event_is_set, hct]
  · intro h1 h2
    simp only [event_wait]
    rw [if_neg (by omega)]
    exact Nat.min_eq_right h2

/-- C7 witness: with the signal set at time 5 and a check at time 7, the
loop exits at once; a signal arriving at time 12 during a sleep started
at time 7 with interval 10 wakes the sleep at 12, not at 17. -/
theorem monitor_thread_shutdown_witness :
    run_worker_monitoring_thread (some 5) 10 constIterTime 3 7 = ([], 7) ∧
    event_wait (some 12) 7 10 = 12 :=
  ⟨(monitor_thread_shutdown 5 10 constIterTime 3 7).2.1 (by decide),
   (monitor_thread_shutdown 12 10 constIterTime 3 7).2.2 (by decide) (by decide)⟩
